import Mathlib

/-!
Shallow embedding of the biometric matching pipeline of the vsnode repository
(`src/combined-server.js`), together with theorems about its signature
comparison endpoint (`POST /compare-signatures`) and its face comparison
endpoint (`POST /compare-faces`).  External collaborators — the account
record store behind `fetchAccountData`, the `sharp` image decoder and the
`face-api.js` detection and embedding provider — are modelled as oracle
inputs, matching the specification, which treats them as black boxes with a
defined contract.
-/

namespace VsNode

/-- Rounding of a rational to four decimal digits, modelling the JavaScript
idiom `parseFloat(x.toFixed(4))` used by both endpoints (round to nearest,
with ties taken toward the larger value, as ECMA `toFixed` does). -/
def toFixed4 (q : ℚ) : ℚ := (round (q * 10000) : ℤ) / 10000

lemma toFixed4_zero : toFixed4 0 = 0 := by
  simp [toFixed4]

lemma toFixed4_eqn (q : ℚ) (n : ℤ) (h1 : (n : ℚ) ≤ q * 10000 + 1/2)
    (h2 : q * 10000 + 1/2 < n + 1) : toFixed4 q = (n : ℚ) / 10000 := by
  unfold toFixed4
  rw [round_eq, show ⌊q * 10000 + 1/2⌋ = n from Int.floor_eq_iff.mpr ⟨h1, by exact_mod_cast h2⟩]

lemma toFixed4_one : toFixed4 1 = 1 := by
  rw [show ((1 : ℚ)) = ((10000 : ℤ) : ℚ) / 10000 by norm_num]
  exact toFixed4_eqn _ _ (by norm_num) (by norm_num)

lemma toFixed4_neg_one : toFixed4 (-1) = -1 := by
  rw [show ((-1 : ℚ)) = ((-10000 : ℤ) : ℚ) / 10000 by norm_num]
  exact toFixed4_eqn _ _ (by norm_num) (by norm_num)

lemma toFixed4_two_thirds : toFixed4 (2/3) = 6667/10000 := by
  rw [show ((6667 : ℚ)/10000) = ((6667 : ℤ) : ℚ) / 10000 by norm_num]
  exact toFixed4_eqn _ _ (by norm_num) (by norm_num)

lemma toFixed4_three_quarters : toFixed4 (3/4) = 3/4 := by
  rw [show ((3 : ℚ)/4) = ((7500 : ℤ) : ℚ) / 10000 by norm_num]
  exact toFixed4_eqn _ _ (by norm_num) (by norm_num)

lemma toFixed4_mono : Monotone toFixed4 := by
  intro a b hab
  unfold toFixed4
  have h1 : round (a * 10000) ≤ round (b * 10000) := by
    rw [round_eq, round_eq]
    exact Int.floor_mono (by linarith)
  have h2 : ((round (a * 10000) : ℤ) : ℚ) ≤ ((round (b * 10000) : ℤ) : ℚ) := by
    exact_mod_cast h1
  linarith

lemma toFixed4_max (a b : ℚ) : toFixed4 (max a b) = max (toFixed4 a) (toFixed4 b) :=
  toFixed4_mono.map_max

/-- Raw decoded image as produced by the `sharp` pipeline in the signature
endpoint: width and height reported by `toBuffer({resolveWithObject: true})`
and the flat single-channel pixel data. -/
structure RawImage where
  width : ℕ
  height : ℕ
  data : List ℕ
deriving DecidableEq

/-- Absolute difference of two grayscale pixel values, the summand
`Math.abs(img1.data[i] - img2.data[i])` of the signature comparison loop. -/
def pixDiff (a b : ℕ) : ℕ := ((a : ℤ) - (b : ℤ)).natAbs

/-- The `POST /compare-signatures` handler after both uploads have been
decoded, resized and converted to grayscale (combined-server.js lines
132-145): it rejects images whose post-resize dimensions differ, sums the
absolute pixel differences over `pixelCount = width * height` indices,
normalises by `pixelCount * 255` and responds with the similarity rounded to
four decimal digits. -/
def compareSignatures (img1 img2 : RawImage) : Except String ℚ :=
  if img1.width ≠ img2.width ∨ img1.height ≠ img2.height then
    .error "Images must have the same dimensions after resizing"
  else
    let pixelCount := img1.width * img1.height
    let difference :=
      ((List.range pixelCount).map fun i =>
        pixDiff (img1.data.getD i 0) (img2.data.getD i 0)).sum
    let maxDifference := pixelCount * 255
    .ok (toFixed4 (1 - (difference : ℚ) / (maxDifference : ℚ)))

/-- One entry of the `approved` array returned by the external account
record store; `none` models a missing (or otherwise falsy) field, which the
per-item validation in `fetchAccountData` rejects. -/
structure ApprovedItem where
  photo : Option String
  signature : Option String
deriving DecidableEq

/-- JavaScript truthiness of an optional string field: missing, null and
empty strings are falsy. -/
def truthy : Option String → Bool
  | none => false
  | some s => s ≠ ""

/-- The `fetchAccountData` helper (combined-server.js lines 81-106) after
the HTTP response of the account record store has arrived: `none` models a
response whose `approved` field is missing or not an array.  It throws when
the array is missing or empty and when any item lacks a `photo` or a
`signature` field, and otherwise returns the `approved` array unchanged. -/
def fetchAccountData (approved : Option (List ApprovedItem)) :
    Except String (List ApprovedItem) :=
  match approved with
  | none => .error "Invalid response format from external API: approved array is missing or empty"
  | some items =>
    if items.length = 0 then
      .error "Invalid response format from external API: approved array is missing or empty"
    else if items.all fun it => truthy it.photo && truthy it.signature then
      .ok items
    else
      .error "Invalid response format from external API: photo or signature missing in approved item"

/-- Outcome of decoding one stored candidate photo and running the external
face detector on it (combined-server.js lines 298-310): `decodeError` models
a throw from `Buffer.from` / `sharp` / `loadImage` while handling the stored
photo, `noFace` a null `storedDetection`, and `detected` a successful
detection carrying the face descriptor produced by the embedding provider. -/
inductive DetectOutcome where
  | decodeError (msg : String)
  | noFace
  | detected (desc : List ℚ)
deriving DecidableEq

/-- Outcome of decoding the live photo and running the external face
detector on it (combined-server.js lines 277-288). -/
inductive LiveOutcome where
  | decodeError (msg : String)
  | noFace
  | detected (desc : List ℚ)
deriving DecidableEq

/-- One element of the `faceResults` array pushed by the candidate loop:
exactly the fields `{faceUrl, isMatch, similarity}` that the code emits —
the source records no further field for a failed candidate. -/
structure FaceResult where
  faceUrl : String
  isMatch : Bool
  similarity : ℚ
deriving DecidableEq

/-- The HTTP response of the face comparison endpoint: either
`res.status(status).json({error, details?})` or the success payload
`{isMatch, bestSimilarity, faces}`. -/
inductive Response where
  | error (status : ℕ) (errorMsg : String) (details : Option String)
  | ok (isMatch : Bool) (bestSimilarity : ℚ) (faces : List FaceResult)
deriving DecidableEq

/-- Whether a response is the success payload of the endpoint. -/
def Response.isOk : Response → Bool
  | .ok _ _ _ => true
  | .error _ _ _ => false

/-- The `for (const item of accountData)` loop of the face comparison
handler (combined-server.js lines 296-338), threading the `bestSimilarity`
and `isMatch` accumulators.  A `decodeError` on a stored photo propagates as
a thrown exception (`Except.error`), a null detection pushes
`{faceUrl, isMatch: false, similarity: 0}` and continues, and a detection
computes `distance` via the external provider, `similarity = 1 - distance`,
`match = distance < 0.5`, pushes the result with the similarity rounded to
four digits, and updates the accumulators. -/
def candidateLoop (dist : List ℚ → List ℚ → ℚ) (live : List ℚ) :
    List (String × DetectOutcome) → ℚ → Bool →
    Except String (List FaceResult × ℚ × Bool)
  | [], best, anyM => .ok ([], best, anyM)
  | (url, o) :: rest, best, anyM =>
    match o with
    | .decodeError msg => .error msg
    | .noFace =>
      match candidateLoop dist live rest best anyM with
      | .error msg => .error msg
      | .ok (rs, b, m) => .ok (⟨url, false, 0⟩ :: rs, b, m)
    | .detected desc =>
      let d := dist live desc
      let similarity := 1 - d
      let mtch := decide (d < 1/2)
      let best' := if similarity > best then similarity else best
      match candidateLoop dist live rest best' (anyM || mtch) with
      | .error msg => .error msg
      | .ok (rs, b, m) => .ok (⟨url, mtch, toFixed4 similarity⟩ :: rs, b, m)

/-- The `faceUrl` taken from an approved item (`item.photo`), which the loop
uses both as the decode input and as the source identifier of the result. -/
def photoStr (it : ApprovedItem) : String := it.photo.getD ""

/-- The `POST /compare-faces` handler (combined-server.js lines 261-350).
Parameters model the request and the responses of the external
collaborators: `approved` is the account record store response, `liveOut`
the outcome of decoding and detecting the live photo, `candOut` the outcome
of decoding and detecting a stored photo given its `item.photo` value, and
`dist` the Euclidean distance function of the external face-api library
applied to the live descriptor and a candidate descriptor.  Any exception
thrown while fetching account data or inside the candidate loop reaches the
surrounding catch and yields the 500 response with the thrown message as
`details`. -/
def compareFaces (dist : List ℚ → List ℚ → ℚ) (accountNumber : Option String)
    (livePhotoPresent : Bool) (approved : Option (List ApprovedItem))
    (liveOut : LiveOutcome) (candOut : String → DetectOutcome) : Response :=
  if truthy accountNumber && livePhotoPresent then
    match fetchAccountData approved with
    | .error msg => .error 500 "Failed to compare faces" (some msg)
    | .ok accountData =>
      match liveOut with
      | .decodeError msg => .error 500 "Failed to compare faces" (some msg)
      | .noFace => .error 400 "No face detected in the live photo" none
      | .detected liveDescriptor =>
        match candidateLoop dist liveDescriptor
            (accountData.map fun it => (photoStr it, candOut (photoStr it))) 0 false with
        | .error msg => .error 500 "Failed to compare faces" (some msg)
        | .ok (faceResults, bestSimilarity, isMatch) =>
          .ok isMatch (toFixed4 bestSimilarity) faceResults
  else
    .error 400 "accountNumber and livePhoto are required" none

/-- Modelled from the spec: the Euclidean distance of the external
`face-api.js` embedding provider (not part of this repository), specialised
to one-dimensional descriptors, where it coincides with the absolute
difference of the single coordinates and is therefore rational.  Used to
instantiate concrete runs of the pipeline. -/
def absDist (a b : List ℚ) : ℚ := |a.headD 0 - b.headD 0|

/-- Modelled from the spec: the best similarity as the claim words it, the
maximum of the per-candidate similarities over all evaluated candidates
(failed candidates already contribute a similarity of 0 in their Match
Result). -/
def specBestSimilarity (sims : List ℚ) : ℚ :=
  match sims with
  | [] => 0
  | s :: rest => rest.foldr max s

/-- Boolean test singling out the decode-failure outcome of a stored
photo. -/
def isDecodeError : DetectOutcome → Bool
  | .decodeError _ => true
  | _ => false

lemma le_foldr_max (l : List ℚ) (a : ℚ) : a ≤ l.foldr max a := by
  induction l with
  | nil => exact le_refl a
  | cons b t ih => exact le_trans ih (le_max_right b (t.foldr max a))

lemma foldr_max_max (l : List ℚ) (a c : ℚ) : l.foldr max (max a c) = max c (l.foldr max a) := by
  induction l with
  | nil => exact max_comm a c
  | cons b t ih => simp only [List.foldr_cons, ih, max_left_comm]

lemma foldr_max_of_all_zero (l : List ℚ) (h : ∀ x ∈ l, x = 0) : l.foldr max 0 = 0 := by
  induction l with
  | nil => rfl
  | cons b t ih =>
    have hb := h b (List.mem_cons_self b t)
    have ht := ih fun x hx => h x (List.mem_cons_of_mem b hx)
    simp [hb, ht]

lemma candidateLoop_ok_length (dist : List ℚ → List ℚ → ℚ) (live : List ℚ) :
    ∀ (cands : List (String × DetectOutcome)) (best : ℚ) (anyM : Bool)
      (rs : List FaceResult) (b : ℚ) (m : Bool),
      candidateLoop dist live cands best anyM = .ok (rs, b, m) →
      rs.length = cands.length := by
  intro cands
  induction cands with
  | nil =>
    intro best anyM rs b m h
    simp only [candidateLoop, Except.ok.injEq, Prod.mk.injEq] at h
    simp [← h.1]
  | cons c t ih =>
    intro best anyM rs b m h
    obtain ⟨url, o⟩ := c
    cases o with
    | decodeError msg => simp [candidateLoop] at h
    | noFace =>
      rw [candidateLoop] at h
      cases hrec : candidateLoop dist live t best anyM with
      | error msg => rw [hrec] at h; simp at h
      | ok v =>
        obtain ⟨rs', b', m'⟩ := v
        rw [hrec] at h
        simp only [Except.ok.injEq, Prod.mk.injEq] at h
        obtain ⟨hrs, -, -⟩ := h
        subst hrs
        simp [ih best anyM rs' b' m' hrec]
    | detected desc =>
      rw [candidateLoop] at h
      cases hrec : candidateLoop dist live t
          (if 1 - dist live desc > best then 1 - dist live desc else best)
          (anyM || decide (dist live desc < 1/2)) with
      | error msg => rw [hrec] at h; simp at h
      | ok v =>
        obtain ⟨rs', b', m'⟩ := v
        rw [hrec] at h
        simp only [Except.ok.injEq, Prod.mk.injEq] at h
        obtain ⟨hrs, -, -⟩ := h
        subst hrs
        simp [ih _ _ rs' b' m' hrec]

lemma candidateLoop_ok_best (dist : List ℚ → List ℚ → ℚ) (live : List ℚ) :
    ∀ (cands : List (String × DetectOutcome)) (best : ℚ) (anyM : Bool)
      (rs : List FaceResult) (b : ℚ) (m : Bool), 0 ≤ best →
      candidateLoop dist live cands best anyM = .ok (rs, b, m) →
      toFixed4 b = (rs.map FaceResult.similarity).foldr max (toFixed4 best) := by
  intro cands
  induction cands with
  | nil =>
    intro best anyM rs b m hb h
    simp only [candidateLoop, Except.ok.injEq, Prod.mk.injEq] at h
    obtain ⟨hrs, hbb, -⟩ := h
    subst hrs; subst hbb
    simp
  | cons c t ih =>
    intro best anyM rs b m hb h
    obtain ⟨url, o⟩ := c
    cases o with
    | decodeError msg => simp [candidateLoop] at h
    | noFace =>
      rw [candidateLoop] at h
      cases hrec : candidateLoop dist live t best anyM with
      | error msg => rw [hrec] at h; simp at h
      | ok v =>
        obtain ⟨rs', b', m'⟩ := v
        rw [hrec] at h
        simp only [Except.ok.injEq, Prod.mk.injEq] at h
        obtain ⟨hrs, hbb, -⟩ := h
        subst hrs; subst hbb
        have hIH := ih best anyM rs' b' m' hb hrec
        have h0 : (0 : ℚ) ≤ (rs'.map FaceResult.similarity).foldr max (toFixed4 best) := by
          have hz : (0 : ℚ) ≤ toFixed4 best := by
            have := toFixed4_mono hb
            rwa [toFixed4_zero] at this
          exact le_trans hz (le_foldr_max _ _)
        simp [hIH, max_eq_right h0]
    | detected desc =>
      rw [candidateLoop] at h
      cases hrec : candidateLoop dist live t
          (if 1 - dist live desc > best then 1 - dist live desc else best)
          (anyM || decide (dist live desc < 1/2)) with
      | error msg => rw [hrec] at h; simp at h
      | ok v =>
        obtain ⟨rs', b', m'⟩ := v
        rw [hrec] at h
        simp only [Except.ok.injEq, Prod.mk.injEq] at h
        obtain ⟨hrs, hbb, -⟩ := h
        subst hrs; subst hbb
        have hb2 : (0 : ℚ) ≤ if 1 - dist live desc > best then 1 - dist live desc else best := by
          split <;> linarith
        have hIH := ih _ _ rs' b' m' hb2 hrec
        have hmax : (if 1 - dist live desc > best then 1 - dist live desc else best) =
            max best (1 - dist live desc) := by
          rcases le_or_lt (1 - dist live desc) best with hle | hlt
          · rw [if_neg (not_lt.mpr hle), max_eq_left hle]
          · rw [if_pos hlt, max_eq_right hlt.le]
        rw [hmax, toFixed4_max] at hIH
        rw [hIH]
        simp only [List.map_cons, List.foldr_cons]
        exact (foldr_max_max _ _ _)

lemma candidateLoop_ok_match (dist : List ℚ → List ℚ → ℚ) (live : List ℚ) :
    ∀ (cands : List (String × DetectOutcome)) (best : ℚ) (anyM : Bool)
      (rs : List FaceResult) (b : ℚ) (m : Bool),
      candidateLoop dist live cands best anyM = .ok (rs, b, m) →
      m = (anyM || rs.any FaceResult.isMatch) := by
  intro cands
  induction cands with
  | nil =>
    intro best anyM rs b m h
    simp only [candidateLoop, Except.ok.injEq, Prod.mk.injEq] at h
    obtain ⟨hrs, -, hm⟩ := h
    subst hrs; subst hm
    simp
  | cons c t ih =>
    intro best anyM rs b m h
    obtain ⟨url, o⟩ := c
    cases o with
    | decodeError msg => simp [candidateLoop] at h
    | noFace =>
      rw [candidateLoop] at h
      cases hrec : candidateLoop dist live t best anyM with
      | error msg => rw [hrec] at h; simp at h
      | ok v =>
        obtain ⟨rs', b', m'⟩ := v
        rw [hrec] at h
        simp only [Except.ok.injEq, Prod.mk.injEq] at h
        obtain ⟨hrs, -, hm⟩ := h
        subst hrs; subst hm
        simp [ih best anyM rs' b' m' hrec]
    | detected desc =>
      rw [candidateLoop] at h
      cases hrec : candidateLoop dist live t
          (if 1 - dist live desc > best then 1 - dist live desc else best)
          (anyM || decide (dist live desc < 1/2)) with
      | error msg => rw [hrec] at h; simp at h
      | ok v =>
        obtain ⟨rs', b', m'⟩ := v
        rw [hrec] at h
        simp only [Except.ok.injEq, Prod.mk.injEq] at h
        obtain ⟨hrs, -, hm⟩ := h
        subst hrs; subst hm
        have hIH := ih _ _ rs' b' m' hrec
        simp [hIH, Bool.or_assoc]

lemma candidateLoop_ok_zip (dist : List ℚ → List ℚ → ℚ) (live : List ℚ) :
    ∀ (cands : List (String × DetectOutcome)) (best : ℚ) (anyM : Bool)
      (rs : List FaceResult) (b : ℚ) (m : Bool),
      candidateLoop dist live cands best anyM = .ok (rs, b, m) →
      ∀ url o r, ((url, o), r) ∈ cands.zip rs →
        (o = .noFace → r = ⟨url, false, 0⟩) ∧
        (∀ desc, o = .detected desc →
          r = ⟨url, decide (dist live desc < 1/2), toFixed4 (1 - dist live desc)⟩) := by
  intro cands
  induction cands with
  | nil =>
    intro best anyM rs b m h url o r hmem
    simp at hmem
  | cons c t ih =>
    intro best anyM rs b m h url o r hmem
    obtain ⟨curl, co⟩ := c
    cases co with
    | decodeError msg => simp [candidateLoop] at h
    | noFace =>
      rw [candidateLoop] at h
      cases hrec : candidateLoop dist live t best anyM with
      | error msg => rw [hrec] at h; simp at h
      | ok v =>
        obtain ⟨rs', b', m'⟩ := v
        rw [hrec] at h
        simp only [Except.ok.injEq, Prod.mk.injEq] at h
        obtain ⟨hrs, -, -⟩ := h
        subst hrs
        rw [List.zip_cons_cons, List.mem_cons] at hmem
        rcases hmem with heq | hmem
        · simp only [Prod.mk.injEq] at heq
          obtain ⟨⟨hu, ho⟩, hr⟩ := heq
          subst hu; subst hr
          constructor
          · intro _; rfl
          · intro desc hdesc
            rw [ho] at hdesc
            simp at hdesc
        · exact ih best anyM rs' b' m' hrec url o r hmem
    | detected desc0 =>
      rw [candidateLoop] at h
      cases hrec : candidateLoop dist live t
          (if 1 - dist live desc0 > best then 1 - dist live desc0 else best)
          (anyM || decide (dist live desc0 < 1/2)) with
      | error msg => rw [hrec] at h; simp at h
      | ok v =>
        obtain ⟨rs', b', m'⟩ := v
        rw [hrec] at h
        simp only [Except.ok.injEq, Prod.mk.injEq] at h
        obtain ⟨hrs, -, -⟩ := h
        subst hrs
        rw [List.zip_cons_cons, List.mem_cons] at hmem
        rcases hmem with heq | hmem
        · simp only [Prod.mk.injEq] at heq
          obtain ⟨⟨hu, ho⟩, hr⟩ := heq
          subst hu; subst hr
          constructor
          · intro hno
            rw [ho] at hno
            simp at hno
          · intro desc hdesc
            rw [ho] at hdesc
            simp only [DetectOutcome.detected.injEq] at hdesc
            subst hdesc
            rfl
        · exact ih _ _ rs' b' m' hrec url o r hmem

lemma candidateLoop_error_of_decode (dist : List ℚ → List ℚ → ℚ) (live : List ℚ) :
    ∀ (cands : List (String × DetectOutcome)) (best : ℚ) (anyM : Bool),
      (∃ c ∈ cands, isDecodeError c.2 = true) →
      ∃ msg, candidateLoop dist live cands best anyM = .error msg := by
  intro cands
  induction cands with
  | nil =>
    intro best anyM h
    simp at h
  | cons c t ih =>
    intro best anyM h
    obtain ⟨curl, co⟩ := c
    cases co with
    | decodeError msg => exact ⟨msg, by rw [candidateLoop]⟩
    | noFace =>
      have ht : ∃ c ∈ t, isDecodeError c.2 = true := by
        rcases h with ⟨c', hc', hdec⟩
        rcases List.mem_cons.mp hc' with hceq | hcr
        · subst hceq; simp [isDecodeError] at hdec
        · exact ⟨c', hcr, hdec⟩
      obtain ⟨msg, hmsg⟩ := ih best anyM ht
      refine ⟨msg, ?_⟩
      rw [candidateLoop, hmsg]
    | detected desc =>
      have ht : ∃ c ∈ t, isDecodeError c.2 = true := by
        rcases h with ⟨c', hc', hdec⟩
        rcases List.mem_cons.mp hc' with hceq | hcr
        · subst hceq; simp [isDecodeError] at hdec
        · exact ⟨c', hcr, hdec⟩
      obtain ⟨msg, hmsg⟩ := ih
        (if 1 - dist live desc > best then 1 - dist live desc else best)
        (anyM || decide (dist live desc < 1/2)) ht
      refine ⟨msg, ?_⟩
      rw [candidateLoop, hmsg]

lemma candidateLoop_ok_of_no_decode (dist : List ℚ → List ℚ → ℚ) (live : List ℚ) :
    ∀ (cands : List (String × DetectOutcome)) (best : ℚ) (anyM : Bool),
      (∀ c ∈ cands, isDecodeError c.2 = false) →
      ∃ rs b m, candidateLoop dist live cands best anyM = .ok (rs, b, m) := by
  intro cands
  induction cands with
  | nil =>
    intro best anyM _
    exact ⟨[], best, anyM, by rw [candidateLoop]⟩
  | cons c t ih =>
    intro best anyM h
    obtain ⟨curl, co⟩ := c
    have ht : ∀ c ∈ t, isDecodeError c.2 = false :=
      fun c hc => h c (List.mem_cons_of_mem _ hc)
    cases co with
    | decodeError msg =>
      have := h (curl, .decodeError msg) (List.mem_cons_self _ _)
      simp [isDecodeError] at this
    | noFace =>
      obtain ⟨rs, b, m, hmsg⟩ := ih best anyM ht
      exact ⟨⟨curl, false, 0⟩ :: rs, b, m, by rw [candidateLoop, hmsg]⟩
    | detected desc =>
      obtain ⟨rs, b, m, hmsg⟩ := ih
        (if 1 - dist live desc > best then 1 - dist live desc else best)
        (anyM || decide (dist live desc < 1/2)) ht
      refine ⟨⟨curl, decide (dist live desc < 1/2), toFixed4 (1 - dist live desc)⟩ :: rs, b, m, ?_⟩
      rw [candidateLoop, hmsg]

lemma compareFaces_ok_inv (dist : List ℚ → List ℚ → ℚ) (accountNumber : Option String)
    (livePhotoPresent : Bool) (approved : Option (List ApprovedItem))
    (liveOut : LiveOutcome) (candOut : String → DetectOutcome)
    (m : Bool) (b : ℚ) (rs : List FaceResult)
    (h : compareFaces dist accountNumber livePhotoPresent approved liveOut candOut = .ok m b rs) :
    ∃ items live, fetchAccountData approved = .ok items ∧ liveOut = .detected live ∧
      ∃ bLoop,
        candidateLoop dist live (items.map fun it => (photoStr it, candOut (photoStr it))) 0 false
          = .ok (rs, bLoop, m) ∧ b = toFixed4 bLoop := by
  cases liveOut with
  | decodeError msg =>
    unfold compareFaces at h
    split at h
    · split at h
      · simp at h
      · next items hfetch => simp at h
    · simp at h
  | noFace =>
    unfold compareFaces at h
    split at h
    · split at h
      · simp at h
      · next items hfetch => simp at h
    · simp at h
  | detected live =>
    unfold compareFaces at h
    split at h
    · split at h
      · simp at h
      · next items hfetch =>
        dsimp only at h
        cases hloop : candidateLoop dist live
            (items.map fun it => (photoStr it, candOut (photoStr it))) 0 false with
        | error msg => rw [hloop] at h; simp at h
        | ok v =>
          obtain ⟨rs2, bL, m2⟩ := v
          rw [hloop] at h
          simp only [Response.ok.injEq] at h
          obtain ⟨hm, hb, hrs⟩ := h
          subst hm; subst hrs
          exact ⟨items, live, hfetch, rfl, bL, hloop, hb.symm⟩
    · simp at h

lemma range_map_getD_sum (f : ℕ → ℕ → ℕ) :
    ∀ (d1 d2 : List ℕ) (n : ℕ), d1.length = n → d2.length = n →
      ((List.range n).map fun i => f (d1.getD i 0) (d2.getD i 0)).sum =
        (List.zipWith f d1 d2).sum := by
  intro d1
  induction d1 with
  | nil =>
    intro d2 n h1 h2
    subst h1
    simp
  | cons a t1 ih =>
    intro d2 n h1 h2
    cases d2 with
    | nil => rw [← h1] at h2; simp at h2
    | cons b t2 =>
      subst h1
      simp only [List.length_cons] at h2 ⊢
      rw [List.range_succ_eq_map]
      simp only [List.map_cons, List.map_map, List.sum_cons, List.zipWith_cons_cons,
        List.getD_cons_zero]
      congr 1
      have hcomp : ((fun i => f ((a :: t1).getD i 0) ((b :: t2).getD i 0)) ∘ Nat.succ) =
          fun i => f (t1.getD i 0) (t2.getD i 0) := by
        funext i
        simp [List.getD_cons_succ]
      rw [hcomp]
      exact ih t2 t1.length rfl (by omega)

lemma sum_zipWith_natAbs_le :
    ∀ (d1 d2 : List ℕ), (∀ p ∈ d1, p ≤ 255) → (∀ p ∈ d2, p ≤ 255) →
      (List.zipWith pixDiff d1 d2).sum ≤ (List.zipWith pixDiff d1 d2).length * 255 := by
  intro d1
  induction d1 with
  | nil => intro d2 _ _; simp
  | cons a t1 ih =>
    intro d2 h1 h2
    cases d2 with
    | nil => simp
    | cons b t2 =>
      have hred : List.zipWith pixDiff (a :: t1) (b :: t2) =
          pixDiff a b :: List.zipWith pixDiff t1 t2 := rfl
      rw [hred]
      simp only [List.sum_cons, List.length_cons]
      have ha : a ≤ 255 := h1 a (List.mem_cons_self a t1)
      have hb : b ≤ 255 := h2 b (List.mem_cons_self b t2)
      have habs : pixDiff a b ≤ 255 := by
        unfold pixDiff
        omega
      have ht := ih t2 (fun p hp => h1 p (List.mem_cons_of_mem a hp))
        (fun p hp => h2 p (List.mem_cons_of_mem b hp))
      omega

lemma sum_zipWith_natAbs_self (d : List ℕ) :
    (List.zipWith pixDiff d d).sum = 0 := by
  induction d with
  | nil => rfl
  | cons a t ih =>
    have hred : List.zipWith pixDiff (a :: t) (a :: t) =
        pixDiff a a :: List.zipWith pixDiff t t := rfl
    rw [hred]
    have hz : pixDiff a a = 0 := by
      unfold pixDiff
      omega
    rw [hz]
    simp only [List.sum_cons, Nat.zero_add]
    exact ih

lemma sum_of_all_eq_255 (l : List ℕ) (h : ∀ x ∈ l, x = 255) : l.sum = l.length * 255 := by
  induction l with
  | nil => rfl
  | cons a t ih =>
    have ha := h a (List.mem_cons_self a t)
    have ht := ih fun x hx => h x (List.mem_cons_of_mem a hx)
    simp only [List.sum_cons, List.length_cons, ha, ht]
    ring

/-- C4: for every pair of canonical single-channel signature images of
identical dimensions, the comparator returns
`1 − (Σ|p1ᵢ − p2ᵢ|) / (pixelCount × 255)`, a value in `[0, 1]` that equals 1
for identical pixel data and 0 when every pixel pair differs by 255, rounded
to four decimal digits in the response. -/
theorem signature_similarity_formula (img1 img2 : RawImage)
    (hw : img1.width = img2.width) (hh : img1.height = img2.height)
    (hl1 : img1.data.length = img1.width * img1.height)
    (hl2 : img2.data.length = img1.width * img1.height)
    (hpos : 0 < img1.width * img1.height)
    (hb1 : ∀ p ∈ img1.data, p ≤ 255) (hb2 : ∀ p ∈ img2.data, p ≤ 255) :
    ∃ s : ℚ,
      compareSignatures img1 img2 = .ok (toFixed4 s) ∧
      s = 1 - ((List.zipWith pixDiff img1.data img2.data).sum : ℚ) /
        ((img1.width * img1.height * 255 : ℕ) : ℚ) ∧
      0 ≤ s ∧ s ≤ 1 ∧
      (img1.data = img2.data → s = 1) ∧
      ((∀ x ∈ List.zipWith pixDiff img1.data img2.data, x = 255) → s = 0) := by
  have hcond : ¬(img1.width ≠ img2.width ∨ img1.height ≠ img2.height) := by
    push_neg
    exact ⟨hw, hh⟩
  have hsum := range_map_getD_sum pixDiff img1.data img2.data
    (img1.width * img1.height) hl1 hl2
  have hden : (0 : ℚ) < ((img1.width * img1.height * 255 : ℕ) : ℚ) := by
    have h1 : 0 < img1.width * img1.height * 255 := by omega
    exact_mod_cast h1
  have hDle : (List.zipWith pixDiff img1.data img2.data).sum ≤
      img1.width * img1.height * 255 := by
    have hle := sum_zipWith_natAbs_le img1.data img2.data hb1 hb2
    rwa [List.length_zipWith, hl1, hl2, min_self] at hle
  refine ⟨1 - ((List.zipWith pixDiff img1.data img2.data).sum : ℚ) /
    ((img1.width * img1.height * 255 : ℕ) : ℚ), ?_, rfl, ?_, ?_, ?_, ?_⟩
  · simp only [compareSignatures, if_neg hcond]
    rw [hsum]
  · have hfrac1 : ((List.zipWith pixDiff img1.data img2.data).sum : ℚ) /
        ((img1.width * img1.height * 255 : ℕ) : ℚ) ≤ 1 := by
      rw [div_le_one hden]
      exact_mod_cast hDle
    linarith
  · have hfrac0 : 0 ≤ ((List.zipWith pixDiff img1.data img2.data).sum : ℚ) /
        ((img1.width * img1.height * 255 : ℕ) : ℚ) := by positivity
    linarith
  · intro hdata
    rw [hdata, sum_zipWith_natAbs_self]
    simp
  · intro hall
    have h255 := sum_of_all_eq_255 _ hall
    rw [List.length_zipWith, hl1, hl2, min_self] at h255
    rw [h255]
    rw [div_self (ne_of_gt hden)]
    ring

/-- Witness for C4 at two concrete one-pixel images: an all-0 image versus
an all-255 image of matching dimensions yields similarity 0. -/
theorem signature_similarity_formula_witness :
    ∃ s : ℚ,
      compareSignatures ⟨1, 1, [0]⟩ ⟨1, 1, [255]⟩ = .ok (toFixed4 s) ∧
      s = 1 - ((List.zipWith pixDiff [0] [255]).sum : ℚ) / ((1 * 1 * 255 : ℕ) : ℚ) ∧
      0 ≤ s ∧ s ≤ 1 ∧
      (([0] : List ℕ) = [255] → s = 1) ∧
      ((∀ x ∈ List.zipWith pixDiff [0] [255], x = 255) → s = 0) :=
  signature_similarity_formula ⟨1, 1, [0]⟩ ⟨1, 1, [255]⟩ rfl rfl rfl rfl
    (by decide) (by decide) (by decide)

/-- C5: for every face comparison request that returns a Verification
Outcome, the overall isMatch flag is true if and only if at least one Match
Result in the returned faces sequence has isMatch = true. -/
theorem overallMatch_iff_any (dist : List ℚ → List ℚ → ℚ) (accountNumber : Option String)
    (livePhotoPresent : Bool) (approved : Option (List ApprovedItem))
    (liveOut : LiveOutcome) (candOut : String → DetectOutcome)
    (m : Bool) (b : ℚ) (rs : List FaceResult)
    (h : compareFaces dist accountNumber livePhotoPresent approved liveOut candOut
      = .ok m b rs) :
    m = rs.any FaceResult.isMatch := by
  obtain ⟨items, live, -, -, bLoop, hloop, -⟩ :=
    compareFaces_ok_inv dist accountNumber livePhotoPresent approved liveOut candOut m b rs h
  have hm := candidateLoop_ok_match dist live _ 0 false rs bLoop m hloop
  simpa using hm

/-- Witness for C5 at a concrete run with one matching candidate. -/
theorem overallMatch_iff_any_witness :
    true = ([(⟨"u", true, 1⟩ : FaceResult)]).any FaceResult.isMatch :=
  overallMatch_iff_any absDist (some "A") true (some [⟨some "u", some "s"⟩])
    (.detected [0]) (fun _ => .detected [0]) true 1 [⟨"u", true, 1⟩]
    (by simp [compareFaces, fetchAccountData, truthy, photoStr, candidateLoop, absDist,
      toFixed4_one])

/-- C9: for every face comparison request that returns a Verification
Outcome, the returned bestSimilarity is never negative — it starts at 0 and
is only replaced by strictly greater per-candidate similarities — even
though individual Match Results may carry negative similarities. -/
theorem bestSimilarity_nonneg (dist : List ℚ → List ℚ → ℚ) (accountNumber : Option String)
    (livePhotoPresent : Bool) (approved : Option (List ApprovedItem))
    (liveOut : LiveOutcome) (candOut : String → DetectOutcome)
    (m : Bool) (b : ℚ) (rs : List FaceResult)
    (h : compareFaces dist accountNumber livePhotoPresent approved liveOut candOut
      = .ok m b rs) :
    0 ≤ b := by
  obtain ⟨items, live, -, -, bLoop, hloop, hb⟩ :=
    compareFaces_ok_inv dist accountNumber livePhotoPresent approved liveOut candOut m b rs h
  have hbest := candidateLoop_ok_best dist live _ 0 false rs bLoop m (le_refl 0) hloop
  rw [toFixed4_zero] at hbest
  rw [hb, hbest]
  exact le_foldr_max _ 0

/-- Witness for C9 at a concrete run whose single Match Result carries the
negative similarity -1 while the returned bestSimilarity is 0. -/
theorem bestSimilarity_nonneg_witness : (0 : ℚ) ≤ 0 :=
  bestSimilarity_nonneg absDist (some "A") true (some [⟨some "u", some "s"⟩])
    (.detected [0]) (fun _ => .detected [2]) false 0 [⟨"u", false, -1⟩]
    (by
      simp [compareFaces, fetchAccountData, truthy, photoStr, candidateLoop, absDist,
        toFixed4_zero]
      norm_num [toFixed4_neg_one])

/-- C1 counterexample: a request whose only candidate is detected at
Euclidean distance 2 from the live face has the single per-candidate
similarity -1 (recorded in its Match Result), so the maximum of the
per-candidate similarities is -1; the endpoint nevertheless returns
bestSimilarity 0, refuting the claim that bestSimilarity equals that
maximum. -/
theorem bestSimilarity_not_max_of_negative :
    compareFaces absDist (some "ACC") true (some [⟨some "u", some "s"⟩])
        (.detected [0]) (fun _ => .detected [2]) =
      .ok false 0 [⟨"u", false, -1⟩] ∧
    specBestSimilarity (List.map FaceResult.similarity [⟨"u", false, -1⟩]) = -1 ∧
    ((0 : ℚ) ≠ -1) := by
  refine ⟨?_, by norm_num [specBestSimilarity], by norm_num⟩
  simp [compareFaces, fetchAccountData, truthy, photoStr, candidateLoop, absDist,
    toFixed4_zero]
  norm_num [toFixed4_neg_one]

/-- C1 (amended): the returned bestSimilarity equals the maximum of the
per-candidate similarities of the Match Results and of the initial value 0
(so it is floored at 0 rather than being the plain maximum); in particular
it equals 0 whenever every candidate failed detection. -/
theorem bestSimilarity_eq_max_with_zero (dist : List ℚ → List ℚ → ℚ)
    (accountNumber : Option String) (livePhotoPresent : Bool)
    (approved : Option (List ApprovedItem)) (liveOut : LiveOutcome)
    (candOut : String → DetectOutcome) (m : Bool) (b : ℚ) (rs : List FaceResult)
    (h : compareFaces dist accountNumber livePhotoPresent approved liveOut candOut
      = .ok m b rs) :
    b = (rs.map FaceResult.similarity).foldr max 0 ∧
      ((∀ r ∈ rs, r.similarity = 0) → b = 0) := by
  obtain ⟨items, live, -, -, bLoop, hloop, hb⟩ :=
    compareFaces_ok_inv dist accountNumber livePhotoPresent approved liveOut candOut m b rs h
  have hbest := candidateLoop_ok_best dist live _ 0 false rs bLoop m (le_refl 0) hloop
  rw [toFixed4_zero] at hbest
  constructor
  · rw [hb]
    exact hbest
  · intro hall
    rw [hb, hbest]
    apply foldr_max_of_all_zero
    intro x hx
    rw [List.mem_map] at hx
    obtain ⟨r, hr, hxr⟩ := hx
    rw [← hxr]
    exact hall r hr

/-- Witness for the amended C1 at a concrete run whose only candidate
failed detection: the returned bestSimilarity is 0, the maximum of 0 and
the recorded similarities. -/
theorem bestSimilarity_eq_max_with_zero_witness :
    (0 : ℚ) = (List.map FaceResult.similarity [(⟨"u", false, 0⟩ : FaceResult)]).foldr max 0 ∧
      ((∀ r ∈ [(⟨"u", false, 0⟩ : FaceResult)], r.similarity = 0) → (0 : ℚ) = 0) :=
  bestSimilarity_eq_max_with_zero absDist (some "A") true (some [⟨some "u", some "s"⟩])
    (.detected [0]) (fun _ => .noFace) false 0 [⟨"u", false, 0⟩]
    (by simp [compareFaces, fetchAccountData, truthy, photoStr, candidateLoop,
      toFixed4_zero])

/-- C7: a face comparison request whose live image has no detectable face
fails with the 400 no-live-face error before any candidate is processed: no
Match Results are computed and no partial Verification Outcome is
returned. -/
theorem no_live_face_aborts (dist : List ℚ → List ℚ → ℚ) (a : String)
    (approved : Option (List ApprovedItem)) (candOut : String → DetectOutcome)
    (items : List ApprovedItem) (ha : a ≠ "")
    (hfetch : fetchAccountData approved = .ok items) :
    compareFaces dist (some a) true approved .noFace candOut =
      .error 400 "No face detected in the live photo" none ∧
    (compareFaces dist (some a) true approved .noFace candOut).isOk = false := by
  have h : compareFaces dist (some a) true approved .noFace candOut =
      .error 400 "No face detected in the live photo" none := by
    unfold compareFaces
    rw [hfetch]
    simp [truthy, ha]
  exact ⟨h, by rw [h]; rfl⟩

/-- Witness for C7 at a concrete request with one stored candidate and an
undetectable live face. -/
theorem no_live_face_aborts_witness :
    compareFaces absDist (some "A") true (some [⟨some "u", some "s"⟩]) .noFace
        (fun _ => .noFace) =
      .error 400 "No face detected in the live photo" none ∧
    (compareFaces absDist (some "A") true (some [⟨some "u", some "s"⟩]) .noFace
        (fun _ => .noFace)).isOk = false :=
  no_live_face_aborts absDist "A" (some [⟨some "u", some "s"⟩]) (fun _ => .noFace)
    [⟨some "u", some "s"⟩] (by decide) (by simp [fetchAccountData, truthy])

/-- C8: a request whose account store response has an empty approved array
fails with the request-level missing-or-empty error from `fetchAccountData`
wrapped in the 500 response, an error distinct from the live detection
failure response, and no Verification Outcome is returned. -/
theorem empty_candidates_error (dist : List ℚ → List ℚ → ℚ) (a : String)
    (liveOut : LiveOutcome) (candOut : String → DetectOutcome) (ha : a ≠ "") :
    compareFaces dist (some a) true (some []) liveOut candOut =
      .error 500 "Failed to compare faces"
        (some "Invalid response format from external API: approved array is missing or empty") ∧
    compareFaces dist (some a) true (some []) liveOut candOut ≠
      .error 400 "No face detected in the live photo" none ∧
    (compareFaces dist (some a) true (some []) liveOut candOut).isOk = false := by
  have h : compareFaces dist (some a) true (some []) liveOut candOut =
      .error 500 "Failed to compare faces"
        (some "Invalid response format from external API: approved array is missing or empty") := by
    unfold compareFaces
    simp [fetchAccountData, truthy, ha]
  refine ⟨h, by rw [h]; simp, by rw [h]; rfl⟩

/-- Witness for C8 at a concrete request with an empty approved array. -/
theorem empty_candidates_error_witness :
    compareFaces absDist (some "A") true (some []) .noFace (fun _ => .noFace) =
      .error 500 "Failed to compare faces"
        (some "Invalid response format from external API: approved array is missing or empty") ∧
    compareFaces absDist (some "A") true (some []) .noFace (fun _ => .noFace) ≠
      .error 400 "No face detected in the live photo" none ∧
    (compareFaces absDist (some "A") true (some []) .noFace (fun _ => .noFace)).isOk
      = false :=
  empty_candidates_error absDist "A" .noFace (fun _ => .noFace) (by decide)

/-- C10: if any entry of the approved list lacks a photo field or lacks a
signature field, the whole face comparison request fails with the 500
validation error — even though the face path never uses the signature — and
no per-candidate partial result is produced. -/
theorem invalid_item_aborts (dist : List ℚ → List ℚ → ℚ) (a : String)
    (liveOut : LiveOutcome) (candOut : String → DetectOutcome)
    (items : List ApprovedItem) (it : ApprovedItem) (ha : a ≠ "")
    (hmem : it ∈ items) (hbad : it.photo = none ∨ it.signature = none) :
    compareFaces dist (some a) true (some items) liveOut candOut =
      .error 500 "Failed to compare faces"
        (some "Invalid response format from external API: photo or signature missing in approved item") ∧
    (compareFaces dist (some a) true (some items) liveOut candOut).isOk = false := by
  have hfetch : fetchAccountData (some items) =
      .error "Invalid response format from external API: photo or signature missing in approved item" := by
    have hne : ¬items.length = 0 := by
      cases items with
      | nil => simp at hmem
      | cons x t => simp
    have hall : (items.all fun i => truthy i.photo && truthy i.signature) = false := by
      rw [List.all_eq_false]
      refine ⟨it, hmem, ?_⟩
      rcases hbad with hb | hb <;> simp [truthy, hb]
    unfold fetchAccountData
    simp [hne, hall]
  have h : compareFaces dist (some a) true (some items) liveOut candOut =
      .error 500 "Failed to compare faces"
        (some "Invalid response format from external API: photo or signature missing in approved item") := by
    unfold compareFaces
    rw [hfetch]
    simp [truthy, ha]
  exact ⟨h, by rw [h]; rfl⟩

/-- Witness for C10 at a concrete request whose single approved item has no
photo field. -/
theorem invalid_item_aborts_witness :
    compareFaces absDist (some "A") true (some [⟨none, some "s"⟩]) .noFace
        (fun _ => .noFace) =
      .error 500 "Failed to compare faces"
        (some "Invalid response format from external API: photo or signature missing in approved item") ∧
    (compareFaces absDist (some "A") true (some [⟨none, some "s"⟩]) .noFace
        (fun _ => .noFace)).isOk = false :=
  invalid_item_aborts absDist "A" .noFace (fun _ => .noFace)
    [⟨none, some "s"⟩] ⟨none, some "s"⟩ (by decide) (by decide) (Or.inl rfl)

/-- C2 counterexample: a request with two candidates whose first stored
photo fails to decode is aborted whole: the response is the 500 request
failure carrying the thrown message, no Match Result is produced for the
second candidate even though it would have matched (its descriptor is at
distance 0 from the live one), refuting the claim that a DecodeError on one
candidate is recorded and processing continues with the rest. -/
theorem decodeError_aborts_request :
    compareFaces absDist (some "A") true
        (some [⟨some "u1", some "s"⟩, ⟨some "u2", some "s"⟩]) (.detected [0])
        (fun url => if url = "u1"
          then .decodeError "Input buffer contains unsupported image format"
          else .detected [0]) =
      .error 500 "Failed to compare faces"
        (some "Input buffer contains unsupported image format") ∧
    absDist [0] [0] = 0 ∧
    (compareFaces absDist (some "A") true
        (some [⟨some "u1", some "s"⟩, ⟨some "u2", some "s"⟩]) (.detected [0])
        (fun url => if url = "u1"
          then .decodeError "Input buffer contains unsupported image format"
          else .detected [0])).isOk = false := by
  refine ⟨?_, by simp [absDist], ?_⟩ <;>
    simp [compareFaces, fetchAccountData, truthy, photoStr, candidateLoop, Response.isOk]

/-- C2 (amended): candidates whose detection merely fails are recorded and
processing continues — when no stored photo throws, the request succeeds
and every candidate, including each NoFaceDetected one, yields a Match
Result — but a decode error on any one candidate aborts the whole request
with the 500 request-level failure, as do a live-image failure and the
absence of candidates. -/
theorem candidate_processing_continues_or_aborts (dist : List ℚ → List ℚ → ℚ)
    (a : String) (approved : Option (List ApprovedItem))
    (candOut : String → DetectOutcome) (items : List ApprovedItem) (live : List ℚ)
    (ha : a ≠ "") (hfetch : fetchAccountData approved = .ok items) :
    ((∀ it ∈ items, isDecodeError (candOut (photoStr it)) = false) →
      ∃ m b rs, compareFaces dist (some a) true approved (.detected live) candOut
        = .ok m b rs ∧ rs.length = items.length) ∧
    ((∃ it ∈ items, isDecodeError (candOut (photoStr it)) = true) →
      ∃ msg, compareFaces dist (some a) true approved (.detected live) candOut
        = .error 500 "Failed to compare faces" (some msg)) := by
  have hred : ∀ (res : Except String (List FaceResult × ℚ × Bool)),
      candidateLoop dist live (items.map fun it => (photoStr it, candOut (photoStr it)))
        0 false = res →
      compareFaces dist (some a) true approved (.detected live) candOut =
        (match res with
         | .error msg => .error 500 "Failed to compare faces" (some msg)
         | .ok (rs, b, m) => .ok m (toFixed4 b) rs) := by
    intro res hres
    unfold compareFaces
    rw [hfetch]
    simp [truthy, ha, hres]
  constructor
  · intro hnone
    have hcands : ∀ c ∈ (items.map fun it => (photoStr it, candOut (photoStr it))),
        isDecodeError c.2 = false := by
      intro c hc
      rw [List.mem_map] at hc
      obtain ⟨it, hit, hceq⟩ := hc
      rw [← hceq]
      exact hnone it hit
    obtain ⟨rs, b, m, hloop⟩ :=
      candidateLoop_ok_of_no_decode dist live _ 0 false hcands
    refine ⟨m, toFixed4 b, rs, hred _ hloop, ?_⟩
    have hlen := candidateLoop_ok_length dist live _ 0 false rs b m hloop
    rw [hlen, List.length_map]
  · intro hsome
    obtain ⟨it, hit, hdec⟩ := hsome
    have hcands : ∃ c ∈ (items.map fun it => (photoStr it, candOut (photoStr it))),
        isDecodeError c.2 = true :=
      ⟨(photoStr it, candOut (photoStr it)),
        List.mem_map_of_mem _ hit, hdec⟩
    obtain ⟨msg, hloop⟩ := candidateLoop_error_of_decode dist live _ 0 false hcands
    exact ⟨msg, hred _ hloop⟩

/-- Witness for the amended C2 at a concrete request whose only candidate
failed detection: the request still succeeds and the candidate appears in
the result sequence. -/
theorem candidate_processing_continues_or_aborts_witness :
    ∃ m b rs, compareFaces absDist (some "A") true (some [⟨some "u", some "s"⟩])
        (.detected [0]) (fun _ => .noFace) = .ok m b rs ∧
      rs.length = ([(⟨some "u", some "s"⟩ : ApprovedItem)]).length :=
  (candidate_processing_continues_or_aborts absDist "A" (some [⟨some "u", some "s"⟩])
    (fun _ => .noFace) [⟨some "u", some "s"⟩] [0] (by decide)
    (by simp [fetchAccountData, truthy])).1
    (fun it _ => rfl)

/-- C3 counterexample: a run whose only candidate fails detection and a run
whose only candidate is compared at Euclidean distance exactly 1 produce the
identical response — the Match Result {faceUrl, isMatch: false,
similarity: 0} with no recorded failure reason — so the caller-visible
result does not always distinguish a candidate that could not be compared
from one that was compared and did not match. -/
theorem failed_candidate_indistinguishable :
    compareFaces absDist (some "A") true (some [⟨some "u", some "s"⟩])
        (.detected [0]) (fun _ => .noFace) =
      .ok false 0 [⟨"u", false, 0⟩] ∧
    compareFaces absDist (some "A") true (some [⟨some "u", some "s"⟩])
        (.detected [0]) (fun _ => .detected [1]) =
      .ok false 0 [⟨"u", false, 0⟩] := by
  constructor
  · simp [compareFaces, fetchAccountData, truthy, photoStr, candidateLoop, toFixed4_zero]
  · simp [compareFaces, fetchAccountData, truthy, photoStr, candidateLoop, absDist]
    norm_num [toFixed4_zero]

/-- C3 (amended): every candidate whose face detection failed yields the
Match Result {faceUrl, isMatch: false, similarity: 0} — similarity 0 and a
negative match flag as claimed, but consisting of exactly these fields, so
no failure reason is recorded in the caller-visible result. -/
theorem failed_candidate_result_fields (dist : List ℚ → List ℚ → ℚ)
    (accountNumber : Option String) (livePhotoPresent : Bool)
    (approved : Option (List ApprovedItem)) (candOut : String → DetectOutcome)
    (items : List ApprovedItem) (live : List ℚ) (m : Bool) (b : ℚ) (rs : List FaceResult)
    (hfetch : fetchAccountData approved = .ok items)
    (h : compareFaces dist accountNumber livePhotoPresent approved (.detected live) candOut
      = .ok m b rs) :
    ∀ p ∈ items.zip rs, candOut (photoStr p.1) = .noFace →
      p.2 = ⟨photoStr p.1, false, 0⟩ := by
  obtain ⟨items2, live2, hfetch2, hlive2, bLoop, hloop, -⟩ :=
    compareFaces_ok_inv dist accountNumber livePhotoPresent approved (.detected live)
      candOut m b rs h
  rw [hfetch] at hfetch2
  injection hfetch2 with hitems
  injection hlive2 with hlive3
  subst hitems
  subst hlive3
  intro p hp hno
  obtain ⟨it, r⟩ := p
  have hzip : ((photoStr it, candOut (photoStr it)), r) ∈
      (items.map fun i => (photoStr i, candOut (photoStr i))).zip rs := by
    rw [List.zip_map_left]
    exact List.mem_map_of_mem _ hp
  exact (candidateLoop_ok_zip dist live _ 0 false rs bLoop m hloop
    (photoStr it) (candOut (photoStr it)) r hzip).1 hno

/-- Witness for the amended C3: in a concrete run with one failed candidate
the emitted Match Result is exactly {faceUrl, isMatch: false,
similarity: 0}. -/
theorem failed_candidate_result_fields_witness :
    (⟨"u", false, 0⟩ : FaceResult) = ⟨photoStr ⟨some "u", some "s"⟩, false, 0⟩ :=
  failed_candidate_result_fields absDist (some "A") true (some [⟨some "u", some "s"⟩])
    (fun _ => .noFace) [⟨some "u", some "s"⟩] [0] false 0 [⟨"u", false, 0⟩]
    (by simp [fetchAccountData, truthy])
    (by simp [compareFaces, fetchAccountData, truthy, photoStr, candidateLoop, toFixed4_zero])
    (⟨some "u", some "s"⟩, ⟨"u", false, 0⟩) (by simp) rfl

/-- C6 counterexample: with the live face at Euclidean distance 1/3 from
the only candidate, the per-candidate similarity recorded in the Match
Result is 0.6667 — the four-digit rounding of 1 − 1/3 — and not
1 − 1/3 = 2/3 itself, refuting the claim that the recorded similarity
equals 1 minus the distance exactly. -/
theorem similarity_rounded_ne_exact :
    compareFaces absDist (some "A") true (some [⟨some "u", some "s"⟩])
        (.detected [0]) (fun _ => .detected [1/3]) =
      .ok true (6667/10000) [⟨"u", true, 6667/10000⟩] ∧
    absDist [0] [1/3] = 1/3 ∧
    ((6667 : ℚ)/10000 ≠ 1 - 1/3) := by
  refine ⟨?_, by norm_num [absDist], by norm_num⟩
  simp [compareFaces, fetchAccountData, truthy, photoStr, candidateLoop, absDist]
  norm_num [toFixed4_two_thirds, abs_of_pos (show (0 : ℚ) < 1/3 by norm_num)]

/-- C6 (amended): for every candidate whose face was detected, the match
flag is true exactly when the Euclidean distance between the live and the
candidate descriptors is strictly below the 0.5 threshold, and the Match
Result similarity equals 1 minus that distance rounded to four decimal
digits (unclamped, so it may still be negative). -/
theorem detected_candidate_result_fields (dist : List ℚ → List ℚ → ℚ)
    (accountNumber : Option String) (livePhotoPresent : Bool)
    (approved : Option (List ApprovedItem)) (candOut : String → DetectOutcome)
    (items : List ApprovedItem) (live : List ℚ) (m : Bool) (b : ℚ) (rs : List FaceResult)
    (hfetch : fetchAccountData approved = .ok items)
    (h : compareFaces dist accountNumber livePhotoPresent approved (.detected live) candOut
      = .ok m b rs) :
    ∀ p ∈ items.zip rs, ∀ desc, candOut (photoStr p.1) = .detected desc →
      p.2.isMatch = decide (dist live desc < 1/2) ∧
      p.2.similarity = toFixed4 (1 - dist live desc) := by
  obtain ⟨items2, live2, hfetch2, hlive2, bLoop, hloop, -⟩ :=
    compareFaces_ok_inv dist accountNumber livePhotoPresent approved (.detected live)
      candOut m b rs h
  rw [hfetch] at hfetch2
  injection hfetch2 with hitems
  injection hlive2 with hlive3
  subst hitems
  subst hlive3
  intro p hp desc hdesc
  obtain ⟨it, r⟩ := p
  have hzip : ((photoStr it, candOut (photoStr it)), r) ∈
      (items.map fun i => (photoStr i, candOut (photoStr i))).zip rs := by
    rw [List.zip_map_left]
    exact List.mem_map_of_mem _ hp
  have hr := (candidateLoop_ok_zip dist live _ 0 false rs bLoop m hloop
    (photoStr it) (candOut (photoStr it)) r hzip).2 desc hdesc
  rw [hr]
  exact ⟨rfl, rfl⟩

/-- Witness for the amended C6 at the concrete distance 1/3 run: the
recorded match flag is the 1/3 < 1/2 comparison and the recorded similarity
is the rounding of 1 − 1/3. -/
theorem detected_candidate_result_fields_witness :
    (⟨"u", true, 6667/10000⟩ : FaceResult).isMatch = decide (absDist [0] [1/3] < 1/2) ∧
    (⟨"u", true, 6667/10000⟩ : FaceResult).similarity = toFixed4 (1 - absDist [0] [1/3]) :=
  detected_candidate_result_fields absDist (some "A") true (some [⟨some "u", some "s"⟩])
    (fun _ => .detected [1/3]) [⟨some "u", some "s"⟩] [0] true (6667/10000)
    [⟨"u", true, 6667/10000⟩]
    (by simp [fetchAccountData, truthy])
    (by
      simp [compareFaces, fetchAccountData, truthy, photoStr, candidateLoop, absDist]
      norm_num [toFixed4_two_thirds, abs_of_pos (show (0 : ℚ) < 1/3 by norm_num)])
    (⟨some "u", some "s"⟩, ⟨"u", true, 6667/10000⟩) (by simp) [1/3] rfl

end VsNode
